import Mathlib

/-!
Verification of the PHAR-MAA Twilio gateway (`src/app.py`).

The service exposes two POST webhook handlers, `/twilio/whatsapp`
(`whatsapp_webhook`) and `/twilio/sms` (`sms_webhook`).  Each handler

* parses the provider form data and reads `From`, `Body` (and, for
  WhatsApp only, `MediaUrl0`),
* logs receipt,
* raises `HTTPException(400)` when the sender is missing or empty,
* builds the canonical payload `{sender, content, channel[, media_url]}`,
* when `LOCAL_BACKEND_URL` is truthy, issues one outbound POST to the
  backend; on HTTP 200 with a JSON body whose `response` field is truthy
  it returns the TwiML `<Message>` markup, otherwise it falls through,
* otherwise returns the empty-acknowledgment TwiML, and
* wraps the whole body in `try/except Exception`, so every raised
  exception is logged and converted to the empty-acknowledgment TwiML.

The embedding below mirrors that control flow as pure functions.  The
behaviour of the single outbound HTTP call is an explicit parameter
(`DownstreamOutcome`); the log lines emitted by a request are collected
in a list so that logging claims can be stated.
-/

/-- The parsed provider form data of one inbound request.  Each field is
`none` when the form key is absent, `some v` when it maps to value `v`
(Starlette `FormData.get` with default `""` is `Option.getD ""`). -/
structure FormData where
  From : Option String
  Body : Option String
  MediaUrl0 : Option String
deriving DecidableEq, Repr

/-- The JSON object returned by the backend, as read by
`backend_data.get("response", "")`: `response` is `some s` when the
`"response"` key is present with string value `s`, `none` when absent. -/
structure BackendData where
  response : Option String
deriving DecidableEq, Repr

/-- Behaviour of the single outbound `httpx` POST to
`{LOCAL_BACKEND_URL}/api/messages/ingest`:

* `completed status json` — the call returned HTTP `status`; `json` is
  the result of `.json()` on the body (`Except.error ()` when the body
  does not parse, which raises only if the code calls `.json()`);
* `timeout` — `httpx` raised a timeout exception (30s budget exceeded);
* `networkError` — `httpx` raised any other exception. -/
inductive DownstreamOutcome where
  | completed (status : Nat) (json : Except Unit BackendData)
  | timeout
  | networkError
deriving Repr

/-- The exceptions that can be raised inside a handler body. -/
inductive Exn where
  | httpException (statusCode : Nat) (detail : String)
  | httpxTimeout
  | httpxConnectError
  | jsonDecodeError
deriving DecidableEq, Repr

/-- A log line emitted through the module logger. -/
inductive LogEvent where
  | infoReceipt (channel sender : String)
  | infoForwarded (status : Nat)
  | errorWebhook (channel : String) (e : Exn)
deriving DecidableEq, Repr

/-- The canonical message envelope posted to the backend.  `media_url`
is `none` when the JSON object has no `media_url` key (the SMS route),
`some none` when the key is present with value `null`, and
`some (some u)` when the key is present with string value `u`. -/
structure Payload where
  sender : String
  content : String
  channel : String
  media_url : Option (Option String)
deriving DecidableEq, Repr

/-- An HTTP response produced by a handler (`PlainTextResponse` has
status code 200 unless one is given). -/
structure HttpResponse where
  statusCode : Nat
  content : String
  mediaType : String
deriving DecidableEq, Repr

/-- The empty-acknowledgment TwiML body, line 119/127/190/198 of
`app.py`. -/
def emptyTwiml : String :=
  "<?xml version=\"1.0\" encoding=\"UTF-8\"?><Response></Response>"

/-- The TwiML body embedding a reply message verbatim, lines 112-113 /
183-184 of `app.py`. -/
def messageTwiml (reply_message : String) : String :=
  "<?xml version=\"1.0\" encoding=\"UTF-8\"?><Response><Message>"
    ++ reply_message ++ "</Message></Response>"

/-- The `PlainTextResponse` acknowledging receipt with empty TwiML. -/
def ackResponse : HttpResponse :=
  { statusCode := 200, content := emptyTwiml, mediaType := "application/xml" }

/-- Result of running a handler's `try` body: the log lines emitted so
far, the envelope posted to the backend (`some p` exactly when the
outbound call was issued, with payload `p`), and either the returned
response or the exception escaping the `try` block. -/
structure TryResult where
  logs : List LogEvent
  forwarded : Option Payload
  result : Except Exn HttpResponse

/-- The observable outcome of one handler invocation: the HTTP response
returned to the provider, the log lines emitted, and the envelope posted
to the backend, if any. -/
structure HandlerResult where
  response : HttpResponse
  logs : List LogEvent
  forwarded : Option Payload

/-- The `try` body of `whatsapp_webhook` (`app.py` lines 71-121), with
the behaviour of the outbound call given by `outcome` and the
configured `LOCAL_BACKEND_URL` given by `url` (`none` when the
environment variable is unset). -/
def whatsapp_try (url : Option String) (form : FormData)
    (outcome : DownstreamOutcome) : TryResult :=
  let sender := form.From.getD ""
  let body := form.Body.getD ""
  let media_url := form.MediaUrl0
  let logs0 := [LogEvent.infoReceipt "WhatsApp" sender]
  if sender = "" then
    ⟨logs0, none, .error (.httpException 400 "Missing sender")⟩
  else
    let payload : Payload :=
      { sender := sender, content := body, channel := "whatsapp",
        media_url := some media_url }
    if url.getD "" ≠ "" then
      match outcome with
      | .timeout => ⟨logs0, some payload, .error .httpxTimeout⟩
      | .networkError => ⟨logs0, some payload, .error .httpxConnectError⟩
      | .completed status json =>
        let logs1 := logs0 ++ [LogEvent.infoForwarded status]
        if status = 200 then
          match json with
          | .error _ => ⟨logs1, some payload, .error .jsonDecodeError⟩
          | .ok backend_data =>
            let reply_message := backend_data.response.getD ""
            if reply_message ≠ "" then
              ⟨logs1, some payload,
                .ok { statusCode := 200, content := messageTwiml reply_message,
                      mediaType := "application/xml" }⟩
            else
              ⟨logs1, some payload, .ok ackResponse⟩
        else
          ⟨logs1, some payload, .ok ackResponse⟩
    else
      ⟨logs0, none, .ok ackResponse⟩

/-- The full `whatsapp_webhook` handler: the `try` body wrapped in the
`except Exception` clause of `app.py` lines 123-129, which logs the
error and returns empty TwiML. -/
def whatsapp_webhook (url : Option String) (form : FormData)
    (outcome : DownstreamOutcome) : HandlerResult :=
  let t := whatsapp_try url form outcome
  match t.result with
  | .ok r => ⟨r, t.logs, t.forwarded⟩
  | .error e => ⟨ackResponse, t.logs ++ [LogEvent.errorWebhook "WhatsApp" e],
                 t.forwarded⟩

/-- The `try` body of `sms_webhook` (`app.py` lines 144-192).  The SMS
route never reads `MediaUrl0` and its payload carries no `media_url`
key. -/
def sms_try (url : Option String) (form : FormData)
    (outcome : DownstreamOutcome) : TryResult :=
  let sender := form.From.getD ""
  let body := form.Body.getD ""
  let logs0 := [LogEvent.infoReceipt "SMS" sender]
  if sender = "" then
    ⟨logs0, none, .error (.httpException 400 "Missing sender")⟩
  else
    let payload : Payload :=
      { sender := sender, content := body, channel := "sms",
        media_url := none }
    if url.getD "" ≠ "" then
      match outcome with
      | .timeout => ⟨logs0, some payload, .error .httpxTimeout⟩
      | .networkError => ⟨logs0, some payload, .error .httpxConnectError⟩
      | .completed status json =>
        let logs1 := logs0 ++ [LogEvent.infoForwarded status]
        if status = 200 then
          match json with
          | .error _ => ⟨logs1, some payload, .error .jsonDecodeError⟩
          | .ok backend_data =>
            let reply_message := backend_data.response.getD ""
            if reply_message ≠ "" then
              ⟨logs1, some payload,
                .ok { statusCode := 200, content := messageTwiml reply_message,
                      mediaType := "application/xml" }⟩
            else
              ⟨logs1, some payload, .ok ackResponse⟩
        else
          ⟨logs1, some payload, .ok ackResponse⟩
    else
      ⟨logs0, none, .ok ackResponse⟩

/-- The full `sms_webhook` handler with its `except Exception` clause
(`app.py` lines 194-200). -/
def sms_webhook (url : Option String) (form : FormData)
    (outcome : DownstreamOutcome) : HandlerResult :=
  let t := sms_try url form outcome
  match t.result with
  | .ok r => ⟨r, t.logs, t.forwarded⟩
  | .error e => ⟨ackResponse, t.logs ++ [LogEvent.errorWebhook "SMS" e],
                 t.forwarded⟩

/-- A log line that records a downstream failure: either the
`logger.error("... webhook error: ...")` line of the except clause, or
the `logger.info("Forwarded to backend: {status}")` line with a
non-success status. -/
def isFailureLog : LogEvent → Bool
  | .infoForwarded s => decide (s ≠ 200)
  | .errorWebhook _ _ => true
  | .infoReceipt _ _ => false

/-- How many failure log lines a handler invocation emitted. -/
def failureLogCount (logs : List LogEvent) : Nat :=
  (logs.filter isFailureLog).length

/-! ## Helper lemmas -/

/-- The `try` body of the WhatsApp handler either returns the empty
acknowledgment, returns the `<Message>` markup for a non-empty reply, or
raises an exception. -/
theorem whatsapp_try_result (url : Option String) (form : FormData)
    (outcome : DownstreamOutcome) :
    (whatsapp_try url form outcome).result = .ok ackResponse ∨
    (∃ t, t ≠ "" ∧ (whatsapp_try url form outcome).result =
      .ok { statusCode := 200, content := messageTwiml t,
            mediaType := "application/xml" }) ∨
    (∃ e, (whatsapp_try url form outcome).result = .error e) := by
  unfold whatsapp_try
  by_cases hs : form.From.getD "" = ""
  · simp [hs]
  · by_cases hu : url.getD "" = ""
    · simp [hs, hu]
    · rcases outcome with ⟨status, json⟩ | _ | _
      · by_cases hst : status = 200
        · rcases json with j | d
          · simp [hs, hu, hst]
          · by_cases hr : d.response.getD "" = ""
            · simp [hs, hu, hst, hr]
            · simp only [hs, hu, hst, hr, if_pos, if_neg, ite_true, ite_false]
              refine Or.inr (Or.inl ⟨d.response.getD "", hr, ?_⟩)
              simp [hs, hu, hr]
        · simp [hs, hu, hst]
      · simp [hs, hu]
      · simp [hs, hu]

/-- Same case split for the SMS handler's `try` body. -/
theorem sms_try_result (url : Option String) (form : FormData)
    (outcome : DownstreamOutcome) :
    (sms_try url form outcome).result = .ok ackResponse ∨
    (∃ t, t ≠ "" ∧ (sms_try url form outcome).result =
      .ok { statusCode := 200, content := messageTwiml t,
            mediaType := "application/xml" }) ∨
    (∃ e, (sms_try url form outcome).result = .error e) := by
  unfold sms_try
  by_cases hs : form.From.getD "" = ""
  · simp [hs]
  · by_cases hu : url.getD "" = ""
    · simp [hs, hu]
    · rcases outcome with ⟨status, json⟩ | _ | _
      · by_cases hst : status = 200
        · rcases json with j | d
          · simp [hs, hu, hst]
          · by_cases hr : d.response.getD "" = ""
            · simp [hs, hu, hst, hr]
            · simp only [hs, hu, hst, hr, if_pos, if_neg, ite_true, ite_false]
              refine Or.inr (Or.inl ⟨d.response.getD "", hr, ?_⟩)
              simp [hs, hu, hr]
        · simp [hs, hu, hst]
      · simp [hs, hu]
      · simp [hs, hu]

/-- The WhatsApp handler's response is always either the empty
acknowledgment or the `<Message>` markup for some non-empty reply. -/
theorem whatsapp_webhook_response (url : Option String) (form : FormData)
    (outcome : DownstreamOutcome) :
    (whatsapp_webhook url form outcome).response = ackResponse ∨
    ∃ t, t ≠ "" ∧ (whatsapp_webhook url form outcome).response =
      { statusCode := 200, content := messageTwiml t,
        mediaType := "application/xml" } := by
  unfold whatsapp_webhook
  dsimp only
  rcases whatsapp_try_result url form outcome with h | ⟨t, ht, h⟩ | ⟨e, h⟩
  · rw [h]
    exact Or.inl rfl
  · rw [h]
    exact Or.inr ⟨t, ht, rfl⟩
  · rw [h]
    exact Or.inl rfl

/-- The SMS handler's response is always either the empty acknowledgment
or the `<Message>` markup for some non-empty reply. -/
theorem sms_webhook_response (url : Option String) (form : FormData)
    (outcome : DownstreamOutcome) :
    (sms_webhook url form outcome).response = ackResponse ∨
    ∃ t, t ≠ "" ∧ (sms_webhook url form outcome).response =
      { statusCode := 200, content := messageTwiml t,
        mediaType := "application/xml" } := by
  unfold sms_webhook
  dsimp only
  rcases sms_try_result url form outcome with h | ⟨t, ht, h⟩ | ⟨e, h⟩
  · rw [h]
    exact Or.inl rfl
  · rw [h]
    exact Or.inr ⟨t, ht, rfl⟩
  · rw [h]
    exact Or.inl rfl

/-- The `except` clause does not change which envelope was forwarded. -/
theorem whatsapp_webhook_forwarded_eq (url : Option String) (form : FormData)
    (outcome : DownstreamOutcome) :
    (whatsapp_webhook url form outcome).forwarded =
      (whatsapp_try url form outcome).forwarded := by
  unfold whatsapp_webhook
  dsimp only
  rcases h : (whatsapp_try url form outcome).result with e | r <;> rfl

/-- The `except` clause does not change which envelope was forwarded. -/
theorem sms_webhook_forwarded_eq (url : Option String) (form : FormData)
    (outcome : DownstreamOutcome) :
    (sms_webhook url form outcome).forwarded =
      (sms_try url form outcome).forwarded := by
  unfold sms_webhook
  dsimp only
  rcases h : (sms_try url form outcome).result with e | r <;> rfl

/-- The WhatsApp `try` body forwards either nothing or exactly the
payload built on lines 87-92 of `app.py`. -/
theorem whatsapp_try_forwarded (url : Option String) (form : FormData)
    (outcome : DownstreamOutcome) :
    (whatsapp_try url form outcome).forwarded = none ∨
    (whatsapp_try url form outcome).forwarded =
      some { sender := form.From.getD "", content := form.Body.getD "",
             channel := "whatsapp", media_url := some form.MediaUrl0 } := by
  unfold whatsapp_try
  by_cases hs : form.From.getD "" = ""
  · simp [hs]
  · by_cases hu : url.getD "" = ""
    · simp [hs, hu]
    · rcases outcome with ⟨status, json⟩ | _ | _
      · by_cases hst : status = 200
        · rcases json with j | d
          · simp [hs, hu, hst]
          · by_cases hr : d.response.getD "" = ""
            · simp [hs, hu, hst, hr]
            · simp [hs, hu, hst, hr]
        · simp [hs, hu, hst]
      · simp [hs, hu]
      · simp [hs, hu]

/-- The SMS `try` body forwards either nothing or exactly the payload
built on lines 159-163 of `app.py`. -/
theorem sms_try_forwarded (url : Option String) (form : FormData)
    (outcome : DownstreamOutcome) :
    (sms_try url form outcome).forwarded = none ∨
    (sms_try url form outcome).forwarded =
      some { sender := form.From.getD "", content := form.Body.getD "",
             channel := "sms", media_url := none } := by
  unfold sms_try
  by_cases hs : form.From.getD "" = ""
  · simp [hs]
  · by_cases hu : url.getD "" = ""
    · simp [hs, hu]
    · rcases outcome with ⟨status, json⟩ | _ | _
      · by_cases hst : status = 200
        · rcases json with j | d
          · simp [hs, hu, hst]
          · by_cases hr : d.response.getD "" = ""
            · simp [hs, hu, hst, hr]
            · simp [hs, hu, hst, hr]
        · simp [hs, hu, hst]
      · simp [hs, hu]
      · simp [hs, hu]

/-! ## Claims -/

/-- C1: for every POST to `/twilio/whatsapp` or `/twilio/sms` whose form
data contains a non-empty `From` field, the handler returns HTTP 200
with media type `application/xml`, regardless of whether the downstream
call succeeds, fails, times out, or is skipped. -/
theorem C1_always_200_xml (url : Option String) (form : FormData)
    (outcome : DownstreamOutcome) (hs : form.From.getD "" ≠ "") :
    ((whatsapp_webhook url form outcome).response.statusCode = 200 ∧
     (whatsapp_webhook url form outcome).response.mediaType = "application/xml") ∧
    ((sms_webhook url form outcome).response.statusCode = 200 ∧
     (sms_webhook url form outcome).response.mediaType = "application/xml") := by
  constructor
  · rcases whatsapp_webhook_response url form outcome with h | ⟨t, ht, h⟩ <;>
      rw [h] <;> exact ⟨rfl, rfl⟩
  · rcases sms_webhook_response url form outcome with h | ⟨t, ht, h⟩ <;>
      rw [h] <;> exact ⟨rfl, rfl⟩

theorem C1_always_200_xml_witness :
    ((whatsapp_webhook (some "http://backend") ⟨some "+15550100", some "hi", none⟩
        DownstreamOutcome.timeout).response.statusCode = 200 ∧
     (whatsapp_webhook (some "http://backend") ⟨some "+15550100", some "hi", none⟩
        DownstreamOutcome.timeout).response.mediaType = "application/xml") ∧
    ((sms_webhook (some "http://backend") ⟨some "+15550100", some "hi", none⟩
        DownstreamOutcome.timeout).response.statusCode = 200 ∧
     (sms_webhook (some "http://backend") ⟨some "+15550100", some "hi", none⟩
        DownstreamOutcome.timeout).response.mediaType = "application/xml") :=
  C1_always_200_xml (some "http://backend") ⟨some "+15550100", some "hi", none⟩
    DownstreamOutcome.timeout (by decide)

/-- C2: when the outbound call completes with success status 200 and the
downstream reply's `response` field is a non-empty string `t`, both
handlers answer with exactly the TwiML markup embedding `t` verbatim. -/
theorem C2_verbatim_reply (url : Option String) (form : FormData) (t : String)
    (hu : url.getD "" ≠ "") (hs : form.From.getD "" ≠ "") (ht : t ≠ "") :
    (whatsapp_webhook url form
        (.completed 200 (.ok ⟨some t⟩))).response.content =
      "<?xml version=\"1.0\" encoding=\"UTF-8\"?><Response><Message>"
        ++ t ++ "</Message></Response>" ∧
    (sms_webhook url form
        (.completed 200 (.ok ⟨some t⟩))).response.content =
      "<?xml version=\"1.0\" encoding=\"UTF-8\"?><Response><Message>"
        ++ t ++ "</Message></Response>" := by
  constructor <;>
    simp [whatsapp_webhook, sms_webhook, whatsapp_try, sms_try,
      hs, hu, ht, messageTwiml]

theorem C2_verbatim_reply_witness :
    (whatsapp_webhook (some "http://backend") ⟨some "+15550100", some "hi", none⟩
        (.completed 200 (.ok ⟨some "Hello"⟩))).response.content =
      "<?xml version=\"1.0\" encoding=\"UTF-8\"?><Response><Message>Hello</Message></Response>" ∧
    (sms_webhook (some "http://backend") ⟨some "+15550100", some "hi", none⟩
        (.completed 200 (.ok ⟨some "Hello"⟩))).response.content =
      "<?xml version=\"1.0\" encoding=\"UTF-8\"?><Response><Message>Hello</Message></Response>" := by
  have h := C2_verbatim_reply (some "http://backend")
    ⟨some "+15550100", some "hi", none⟩ "Hello" (by decide) (by decide) (by decide)
  exact ⟨h.1.trans (by decide), h.2.trans (by decide)⟩

/-- C3: when the outbound call returns HTTP 200 with a JSON body whose
`response` field is the empty string or absent, both handlers answer
with the empty-acknowledgment TwiML. -/
theorem C3_empty_reply_ack (url : Option String) (form : FormData)
    (d : BackendData) (hu : url.getD "" ≠ "") (hs : form.From.getD "" ≠ "")
    (hd : d.response = some "" ∨ d.response = none) :
    (whatsapp_webhook url form
        (.completed 200 (.ok d))).response.content = emptyTwiml ∧
    (sms_webhook url form
        (.completed 200 (.ok d))).response.content = emptyTwiml := by
  have hr : d.response.getD "" = "" := by rcases hd with h | h <;> simp [h]
  constructor <;>
    simp [whatsapp_webhook, sms_webhook, whatsapp_try, sms_try,
      hs, hu, hr, ackResponse]

theorem C3_empty_reply_ack_witness :
    (whatsapp_webhook (some "http://backend") ⟨some "+15550100", some "hi", none⟩
        (.completed 200 (.ok ⟨some ""⟩))).response.content = emptyTwiml ∧
    (sms_webhook (some "http://backend") ⟨some "+15550100", some "hi", none⟩
        (.completed 200 (.ok ⟨some ""⟩))).response.content = emptyTwiml :=
  C3_empty_reply_ack (some "http://backend") ⟨some "+15550100", some "hi", none⟩
    ⟨some ""⟩ (by decide) (by decide) (Or.inl rfl)

/-- C5: when the downstream base URL is not configured (unset or empty),
no outbound call is attempted (no envelope is forwarded) and both
handlers answer with the empty-acknowledgment TwiML. -/
theorem C5_unset_url_no_call (url : Option String) (form : FormData)
    (outcome : DownstreamOutcome) (hu : url.getD "" = "")
    (hs : form.From.getD "" ≠ "") :
    ((whatsapp_webhook url form outcome).forwarded = none ∧
     (whatsapp_webhook url form outcome).response.content = emptyTwiml) ∧
    ((sms_webhook url form outcome).forwarded = none ∧
     (sms_webhook url form outcome).response.content = emptyTwiml) := by
  constructor <;> constructor <;>
    simp [whatsapp_webhook, sms_webhook, whatsapp_try, sms_try,
      hs, hu, ackResponse]

theorem C5_unset_url_no_call_witness :
    ((whatsapp_webhook none ⟨some "+15550100", some "hi", none⟩
        DownstreamOutcome.networkError).forwarded = none ∧
     (whatsapp_webhook none ⟨some "+15550100", some "hi", none⟩
        DownstreamOutcome.networkError).response.content = emptyTwiml) ∧
    ((sms_webhook none ⟨some "+15550100", some "hi", none⟩
        DownstreamOutcome.networkError).forwarded = none ∧
     (sms_webhook none ⟨some "+15550100", some "hi", none⟩
        DownstreamOutcome.networkError).response.content = emptyTwiml) :=
  C5_unset_url_no_call none ⟨some "+15550100", some "hi", none⟩
    DownstreamOutcome.networkError (by decide) (by decide)

/-- C7: when the `From` form field is absent or empty, both handlers
still answer with the empty-acknowledgment TwiML at status 200; the
raised client error never surfaces to the caller. -/
theorem C7_missing_sender_still_ack (url : Option String) (form : FormData)
    (outcome : DownstreamOutcome) (hs : form.From.getD "" = "") :
    ((whatsapp_webhook url form outcome).response.content = emptyTwiml ∧
     (whatsapp_webhook url form outcome).response.statusCode = 200) ∧
    ((sms_webhook url form outcome).response.content = emptyTwiml ∧
     (sms_webhook url form outcome).response.statusCode = 200) := by
  constructor <;> constructor <;>
    simp [whatsapp_webhook, sms_webhook, whatsapp_try, sms_try, hs, ackResponse]

theorem C7_missing_sender_still_ack_witness :
    ((whatsapp_webhook (some "http://backend") ⟨none, some "hi", none⟩
        DownstreamOutcome.timeout).response.content = emptyTwiml ∧
     (whatsapp_webhook (some "http://backend") ⟨none, some "hi", none⟩
        DownstreamOutcome.timeout).response.statusCode = 200) ∧
    ((sms_webhook (some "http://backend") ⟨none, some "hi", none⟩
        DownstreamOutcome.timeout).response.content = emptyTwiml ∧
     (sms_webhook (some "http://backend") ⟨none, some "hi", none⟩
        DownstreamOutcome.timeout).response.statusCode = 200) :=
  C7_missing_sender_still_ack (some "http://backend") ⟨none, some "hi", none⟩
    DownstreamOutcome.timeout (by decide)

/-- C4: when the outbound call times out or returns HTTP 500, both
handlers answer with the empty-acknowledgment TwiML and the failure is
logged exactly once (the timeout through the `except` clause's error
line, the 500 through the single `Forwarded to backend: 500` line). -/
theorem C4_failure_ack_logged_once (url : Option String) (form : FormData)
    (json : Except Unit BackendData) (hu : url.getD "" ≠ "")
    (hs : form.From.getD "" ≠ "") :
    ((whatsapp_webhook url form DownstreamOutcome.timeout).response.content
        = emptyTwiml ∧
     failureLogCount (whatsapp_webhook url form DownstreamOutcome.timeout).logs
        = 1) ∧
    ((whatsapp_webhook url form (.completed 500 json)).response.content
        = emptyTwiml ∧
     failureLogCount (whatsapp_webhook url form (.completed 500 json)).logs
        = 1) ∧
    ((sms_webhook url form DownstreamOutcome.timeout).response.content
        = emptyTwiml ∧
     failureLogCount (sms_webhook url form DownstreamOutcome.timeout).logs
        = 1) ∧
    ((sms_webhook url form (.completed 500 json)).response.content
        = emptyTwiml ∧
     failureLogCount (sms_webhook url form (.completed 500 json)).logs
        = 1) := by
  refine ⟨⟨?_, ?_⟩, ⟨?_, ?_⟩, ⟨?_, ?_⟩, ⟨?_, ?_⟩⟩ <;>
    simp [whatsapp_webhook, sms_webhook, whatsapp_try, sms_try, hs, hu,
      failureLogCount, isFailureLog, ackResponse, List.filter]

theorem C4_failure_ack_logged_once_witness :
    ((whatsapp_webhook (some "http://backend") ⟨some "+15550100", some "hi", none⟩
        DownstreamOutcome.timeout).response.content = emptyTwiml ∧
     failureLogCount (whatsapp_webhook (some "http://backend")
        ⟨some "+15550100", some "hi", none⟩ DownstreamOutcome.timeout).logs = 1) ∧
    ((whatsapp_webhook (some "http://backend") ⟨some "+15550100", some "hi", none⟩
        (.completed 500 (.ok ⟨none⟩))).response.content = emptyTwiml ∧
     failureLogCount (whatsapp_webhook (some "http://backend")
        ⟨some "+15550100", some "hi", none⟩ (.completed 500 (.ok ⟨none⟩))).logs = 1) ∧
    ((sms_webhook (some "http://backend") ⟨some "+15550100", some "hi", none⟩
        DownstreamOutcome.timeout).response.content = emptyTwiml ∧
     failureLogCount (sms_webhook (some "http://backend")
        ⟨some "+15550100", some "hi", none⟩ DownstreamOutcome.timeout).logs = 1) ∧
    ((sms_webhook (some "http://backend") ⟨some "+15550100", some "hi", none⟩
        (.completed 500 (.ok ⟨none⟩))).response.content = emptyTwiml ∧
     failureLogCount (sms_webhook (some "http://backend")
        ⟨some "+15550100", some "hi", none⟩ (.completed 500 (.ok ⟨none⟩))).logs = 1) :=
  C4_failure_ack_logged_once (some "http://backend")
    ⟨some "+15550100", some "hi", none⟩ (.ok ⟨none⟩) (by decide) (by decide)

/-- C6 (counterexample): with the `From` field absent, the WhatsApp
handler does NOT return a 4xx status — it returns 200, because the
raised `HTTPException(400)` is swallowed by the catch-all
`except Exception` clause, which answers with empty TwiML. -/
theorem C6_counterexample :
    (whatsapp_webhook (some "http://backend") ⟨none, some "hello", none⟩
        DownstreamOutcome.networkError).response.statusCode = 200 ∧
    ¬ (400 ≤ (whatsapp_webhook (some "http://backend") ⟨none, some "hello", none⟩
          DownstreamOutcome.networkError).response.statusCode ∧
       (whatsapp_webhook (some "http://backend") ⟨none, some "hello", none⟩
          DownstreamOutcome.networkError).response.statusCode < 500) := by
  decide

/-- C6 (amended): with the `From` field absent or empty, each handler
raises `HTTPException(400, "Missing sender")` inside its `try` body, but
the catch-all `except` clause converts it, so the externally observed
response is HTTP 200 with the empty-acknowledgment TwiML. -/
theorem C6_missing_sender_400_swallowed (url : Option String)
    (form : FormData) (outcome : DownstreamOutcome)
    (hs : form.From.getD "" = "") :
    ((whatsapp_try url form outcome).result =
        .error (.httpException 400 "Missing sender") ∧
     (whatsapp_webhook url form outcome).response.statusCode = 200 ∧
     (whatsapp_webhook url form outcome).response.content = emptyTwiml) ∧
    ((sms_try url form outcome).result =
        .error (.httpException 400 "Missing sender") ∧
     (sms_webhook url form outcome).response.statusCode = 200 ∧
     (sms_webhook url form outcome).response.content = emptyTwiml) := by
  refine ⟨⟨?_, ?_, ?_⟩, ⟨?_, ?_, ?_⟩⟩ <;>
    simp [whatsapp_webhook, sms_webhook, whatsapp_try, sms_try, hs, ackResponse]

theorem C6_missing_sender_400_swallowed_witness :
    ((whatsapp_try (some "http://backend") ⟨none, some "hi", none⟩
        DownstreamOutcome.timeout).result =
        .error (.httpException 400 "Missing sender") ∧
     (whatsapp_webhook (some "http://backend") ⟨none, some "hi", none⟩
        DownstreamOutcome.timeout).response.statusCode = 200 ∧
     (whatsapp_webhook (some "http://backend") ⟨none, some "hi", none⟩
        DownstreamOutcome.timeout).response.content = emptyTwiml) ∧
    ((sms_try (some "http://backend") ⟨none, some "hi", none⟩
        DownstreamOutcome.timeout).result =
        .error (.httpException 400 "Missing sender") ∧
     (sms_webhook (some "http://backend") ⟨none, some "hi", none⟩
        DownstreamOutcome.timeout).response.statusCode = 200 ∧
     (sms_webhook (some "http://backend") ⟨none, some "hi", none⟩
        DownstreamOutcome.timeout).response.content = emptyTwiml) :=
  C6_missing_sender_400_swallowed (some "http://backend")
    ⟨none, some "hi", none⟩ DownstreamOutcome.timeout (by decide)

/-- C8: whenever an envelope is forwarded, its `channel` field is
`"whatsapp"` on the WhatsApp route and `"sms"` on the SMS route,
independent of the form field values. -/
theorem C8_channel_fixed_per_route (url : Option String) (form : FormData)
    (outcome : DownstreamOutcome) :
    (∀ p : Payload, (whatsapp_webhook url form outcome).forwarded = some p →
       p.channel = "whatsapp") ∧
    (∀ p : Payload, (sms_webhook url form outcome).forwarded = some p →
       p.channel = "sms") := by
  constructor
  · intro p hp
    rw [whatsapp_webhook_forwarded_eq] at hp
    rcases whatsapp_try_forwarded url form outcome with h | h <;> rw [h] at hp
    · exact Option.noConfusion hp
    · injection hp with h2
      subst h2
      rfl
  · intro p hp
    rw [sms_webhook_forwarded_eq] at hp
    rcases sms_try_forwarded url form outcome with h | h <;> rw [h] at hp
    · exact Option.noConfusion hp
    · injection hp with h2
      subst h2
      rfl

theorem C8_channel_fixed_per_route_witness :
    ({ sender := "+15550100", content := "hi", channel := "whatsapp",
       media_url := some none } : Payload).channel = "whatsapp" ∧
    ({ sender := "+15550100", content := "hi", channel := "sms",
       media_url := none } : Payload).channel = "sms" :=
  ⟨(C8_channel_fixed_per_route (some "http://backend")
      ⟨some "+15550100", some "hi", none⟩ DownstreamOutcome.timeout).1
      _ (by decide),
   (C8_channel_fixed_per_route (some "http://backend")
      ⟨some "+15550100", some "hi", none⟩ DownstreamOutcome.timeout).2
      _ (by decide)⟩

/-- C9: for every inbound request and every downstream behaviour, both
handlers terminate with a normal response: any exception raised in the
`try` body is converted to the empty-acknowledgment response, and the
response always carries the `application/xml` media type. -/
theorem C9_no_exception_escapes (url : Option String) (form : FormData)
    (outcome : DownstreamOutcome) :
    (∀ e : Exn, (whatsapp_try url form outcome).result = .error e →
       (whatsapp_webhook url form outcome).response = ackResponse) ∧
    (∀ e : Exn, (sms_try url form outcome).result = .error e →
       (sms_webhook url form outcome).response = ackResponse) ∧
    (whatsapp_webhook url form outcome).response.mediaType = "application/xml" ∧
    (sms_webhook url form outcome).response.mediaType = "application/xml" := by
  refine ⟨?_, ?_, ?_, ?_⟩
  · intro e he
    unfold whatsapp_webhook
    dsimp only
    rw [he]
  · intro e he
    unfold sms_webhook
    dsimp only
    rw [he]
  · rcases whatsapp_webhook_response url form outcome with h | ⟨t, ht, h⟩ <;>
      rw [h] <;> rfl
  · rcases sms_webhook_response url form outcome with h | ⟨t, ht, h⟩ <;>
      rw [h] <;> rfl

theorem C9_no_exception_escapes_witness :
    (whatsapp_webhook (some "http://backend") ⟨some "+15550100", some "hi", none⟩
        DownstreamOutcome.timeout).response = ackResponse ∧
    (sms_webhook (some "http://backend") ⟨some "+15550100", some "hi", none⟩
        DownstreamOutcome.timeout).response = ackResponse :=
  ⟨(C9_no_exception_escapes (some "http://backend")
      ⟨some "+15550100", some "hi", none⟩ DownstreamOutcome.timeout).1
      Exn.httpxTimeout (by rfl),
   (C9_no_exception_escapes (some "http://backend")
      ⟨some "+15550100", some "hi", none⟩ DownstreamOutcome.timeout).2.1
      Exn.httpxTimeout (by rfl)⟩

/-- C10: whenever an envelope is forwarded, the SMS envelope has no
`media_url` key, the WhatsApp envelope always has a `media_url` key
whose value is the form's `MediaUrl0` field when present and null
otherwise, and in both routes the `content` field is the form's `Body`
field when present (the empty string when absent or empty). -/
theorem C10_media_url_and_content (url : Option String) (form : FormData)
    (outcome : DownstreamOutcome) :
    (∀ p : Payload, (sms_webhook url form outcome).forwarded = some p →
       p.media_url = none ∧ p.content = form.Body.getD "") ∧
    (∀ p : Payload, (whatsapp_webhook url form outcome).forwarded = some p →
       p.media_url = some form.MediaUrl0 ∧ p.content = form.Body.getD "") := by
  constructor
  · intro p hp
    rw [sms_webhook_forwarded_eq] at hp
    rcases sms_try_forwarded url form outcome with h | h <;> rw [h] at hp
    · exact Option.noConfusion hp
    · injection hp with h2
      subst h2
      exact ⟨rfl, rfl⟩
  · intro p hp
    rw [whatsapp_webhook_forwarded_eq] at hp
    rcases whatsapp_try_forwarded url form outcome with h | h <;> rw [h] at hp
    · exact Option.noConfusion hp
    · injection hp with h2
      subst h2
      exact ⟨rfl, rfl⟩

theorem C10_media_url_and_content_witness :
    (({ sender := "+15550100", content := "hi", channel := "sms",
        media_url := none } : Payload).media_url = none ∧
     ({ sender := "+15550100", content := "hi", channel := "sms",
        media_url := none } : Payload).content =
       ((⟨some "+15550100", some "hi", some "http://img"⟩ : FormData)).Body.getD "") ∧
    (({ sender := "+15550100", content := "hi", channel := "whatsapp",
        media_url := some (some "http://img") } : Payload).media_url =
       some ((⟨some "+15550100", some "hi", some "http://img"⟩ : FormData)).MediaUrl0 ∧
     ({ sender := "+15550100", content := "hi", channel := "whatsapp",
        media_url := some (some "http://img") } : Payload).content =
       ((⟨some "+15550100", some "hi", some "http://img"⟩ : FormData)).Body.getD "") :=
  ⟨(C10_media_url_and_content (some "http://backend")
      ⟨some "+15550100", some "hi", some "http://img"⟩
      DownstreamOutcome.timeout).1 _ (by decide),
   (C10_media_url_and_content (some "http://backend")
      ⟨some "+15550100", some "hi", some "http://img"⟩
      DownstreamOutcome.timeout).2 _ (by decide)⟩
